import Mathlib

/-!
Shallow embedding of the Jump-Dash browser game (src/script.js) and proofs
about it.

Modelling conventions:
* JavaScript numbers are modelled as exact rationals (`ℚ`); every arithmetic
  expression of the source is transcribed literally.
* DOM handles (`document.createElement`, obstacle `element`s) are modelled by
  natural-number identities; the manager state carries a `nextElemId` counter
  standing for the freshness of `document.createElement`.
* DOM styling, audio, haptics and `console.log` calls have no game-state
  effect and are omitted; `CustomEvent` dispatches are modelled as boolean
  outputs where a claim talks about them.
* `localStorage` access is modelled by pure functions on `Option String`
  (`none` = key absent), see `loadHighScore` / `loadLeaderboard`.
-/

namespace JumpDash

/-! ## Configuration constants (src/script.js, `CONFIG`, lines 2-12) -/

def GROUND_LEVEL : ℚ := 10
def CHARACTER_JUMP_POWER : ℚ := 12
def CHARACTER_GRAVITY : ℚ := -(6/10)
def COYOTE_THRESHOLD : ℤ := 6
def INITIAL_OBSTACLE_SPEED : ℚ := 5
def INITIAL_SPAWN_INTERVAL : ℚ := 2000
def MIN_SPAWN_INTERVAL : ℚ := 800
def SCORE_RATE : ℚ := 10
def FPS_SCALE : ℚ := 60

/-! ## Game state enum (src/script.js, `GameState`, lines 15-20) -/

inductive GState where
  | home
  | running
  | paused
  | gameover
  deriving Repr, DecidableEq

/-! ## Character (src/script.js, `class Character`, lines 131-177) -/

structure Character where
  groundLevel : ℚ
  jumpPower : ℚ
  gravity : ℚ
  velocityY : ℚ
  yPos : ℚ
  isJumping : Bool
  coyoteThreshold : ℤ
  coyoteCounter : ℤ
  deriving Repr, DecidableEq

/-- The constructor state (lines 132-144): grounded at `groundLevel`, zero
velocity, not jumping, coyote counter full. -/
def Character.init (groundLevel : ℚ) : Character :=
  { groundLevel := groundLevel
    jumpPower := CHARACTER_JUMP_POWER
    gravity := CHARACTER_GRAVITY
    velocityY := 0
    yPos := groundLevel
    isJumping := false
    coyoteThreshold := COYOTE_THRESHOLD
    coyoteCounter := COYOTE_THRESHOLD }

/-- Result of `Character.jump`: the new character state plus whether the
`playerJump` event was dispatched. -/
structure JumpResult where
  char : Character
  jumped : Bool
  deriving Repr, DecidableEq

/-- `Character.jump` (lines 145-152): no-op when already jumping with the
coyote counter at or below zero; otherwise set the jump flag, set velocity to
the jump power, zero the coyote counter and dispatch `playerJump`. -/
def Character.jump (c : Character) : JumpResult :=
  if c.isJumping = true ∧ c.coyoteCounter ≤ 0 then
    { char := c, jumped := false }
  else
    { char := { c with isJumping := true, velocityY := c.jumpPower, coyoteCounter := 0 }
      jumped := true }

/-- `Character.update` (lines 153-173): refill the coyote counter while on
the ground, otherwise decrement it toward zero; apply gravity to the
velocity, integrate the position, and clamp to the ground (zeroing velocity
and clearing the jump flag) when the position falls below the baseline.
The `onLand` callback / `playerLand` event / vibration of the clamp branch
have no effect on the character state and are omitted. -/
def Character.update (c : Character) : Character :=
  let cc :=
    if c.yPos = c.groundLevel then c.coyoteThreshold
    else if 0 < c.coyoteCounter then c.coyoteCounter - 1
    else c.coyoteCounter
  let v := c.velocityY + c.gravity
  let y := c.yPos + v
  if y < c.groundLevel then
    { c with coyoteCounter := cc, yPos := c.groundLevel, velocityY := 0, isJumping := false }
  else
    { c with coyoteCounter := cc, yPos := y, velocityY := v }

/-- One call on the character: either `update()` or `jump()`. -/
inductive CharOp where
  | update
  | jump
  deriving Repr, DecidableEq

def Character.applyOp (c : Character) : CharOp → Character
  | CharOp.update => c.update
  | CharOp.jump => (c.jump).char

/-- The character state after a sequence of `update`/`jump` calls. -/
def runChar (c : Character) (ops : List CharOp) : Character :=
  ops.foldl Character.applyOp c

/-! ## Screen rectangles and the collision test (src/script.js, lines 371-384)

`getBoundingClientRect` bounds are modelled as a record of rationals. -/

structure Rect where
  left : ℚ
  right : ℚ
  top : ℚ
  bottom : ℚ
  deriving Repr, DecidableEq

/-- The overlap condition of the game loop (lines 374-378):
`charRect.right > obsRect.left && charRect.left < obsRect.right &&
charRect.bottom > obsRect.top`, with `a` in the character role and `b` in the
obstacle role. -/
def collides (a b : Rect) : Bool :=
  decide (a.right > b.left) && decide (a.left < b.right) && decide (a.bottom > b.top)

/-- Number of `gameOver()` invocations performed by the collision loop of
`Game.gameLoop` (lines 372-384) on a given list of obstacle bounds: the loop
tests the obstacles in order and, on the first overlap, dispatches
`playerCollision`, calls `gameOver()` once and returns from the frame. -/
def collisionLoop (charRect : Rect) : List Rect → ℕ
  | [] => 0
  | r :: rs => if collides charRect r then 1 else collisionLoop charRect rs

/-! ## Obstacle manager (src/script.js, `class ObstacleManager`, lines 180-229) -/

/-- An active obstacle: the identity of its DOM element plus its horizontal
`position`. -/
structure Obstacle where
  elem : ℕ
  position : ℚ
  deriving Repr, DecidableEq

structure ObstacleManager where
  obstacleSpeed : ℚ
  spawnInterval : ℚ
  activeObstacles : List Obstacle
  /-- Pooled (detached) elements; `push` appends at the end, `pop` takes the
  last element, as for a JavaScript array. -/
  pool : List ℕ
  timeSinceLastSpawn : ℚ
  minSpawnGap : ℚ
  /-- Freshness counter standing for `document.createElement`. -/
  nextElemId : ℕ
  deriving Repr, DecidableEq

/-- The constructor state (lines 181-189). -/
def ObstacleManager.init (initialSpeed spawnInterval : ℚ) : ObstacleManager :=
  { obstacleSpeed := initialSpeed
    spawnInterval := spawnInterval
    activeObstacles := []
    pool := []
    timeSinceLastSpawn := 0
    minSpawnGap := 1500
    nextElemId := 0 }

/-- The movement-and-recycling loop of `ObstacleManager.update` (lines
191-200): each obstacle moves left by `speed * deltaTime * FPS_SCALE`; those
ending below `-30` are removed from the active list and their elements pushed
onto the pool. The source iterates indices from high to low, so removed
elements are pushed in reverse list order; survivors keep their order.
Returns (new active list, elements pushed to the pool in push order). -/
def stepObstacles (speed dt : ℚ) : List Obstacle → List Obstacle × List ℕ
  | [] => ([], [])
  | o :: rest =>
    let p := o.position - speed * dt * FPS_SCALE
    let r := stepObstacles speed dt rest
    if p < -30 then (r.1, r.2 ++ [o.elem])
    else ({ o with position := p } :: r.1, r.2)

/-- The randomized spawn delay of `ObstacleManager.update` (lines 202-203):
`Math.random() * spawnInterval + 500` clamped upward to `minSpawnGap` by
`Math.max`. `r` is the random draw. -/
def spawnDelayOf (r spawnInterval minSpawnGap : ℚ) : ℚ :=
  max (r * spawnInterval + 500) minSpawnGap

/-- `ObstacleManager.spawnObstacle` (lines 209-221): reuse the last pooled
element if any, else create a fresh one; append an obstacle at position
`width` (the container's `offsetWidth`) to the active list. -/
def ObstacleManager.spawnObstacle (m : ObstacleManager) (width : ℚ) : ObstacleManager :=
  match m.pool.getLast? with
  | some e =>
    { m with pool := m.pool.dropLast
             activeObstacles := m.activeObstacles ++ [{ elem := e, position := width }] }
  | none =>
    { m with nextElemId := m.nextElemId + 1
             activeObstacles := m.activeObstacles ++ [{ elem := m.nextElemId, position := width }] }

/-- `ObstacleManager.update` (lines 190-208): move and recycle the active
obstacles, accumulate `deltaTime * 1000` into the spawn timer, and spawn one
obstacle (resetting the timer) when the timer exceeds the randomized delay.
`r` is the `Math.random()` draw and `width` the container width used on a
spawn. -/
def ObstacleManager.update (m : ObstacleManager) (dt r width : ℚ) : ObstacleManager :=
  let moved := stepObstacles m.obstacleSpeed dt m.activeObstacles
  let m1 := { m with activeObstacles := moved.1, pool := m.pool ++ moved.2 }
  let t := m1.timeSinceLastSpawn + dt * 1000
  let spawnDelay := spawnDelayOf r m1.spawnInterval m1.minSpawnGap
  if t > spawnDelay then
    { m1.spawnObstacle width with timeSinceLastSpawn := 0 }
  else
    { m1 with timeSinceLastSpawn := t }

/-- One call on the obstacle manager (no `reset()`). -/
inductive OMOp where
  | update (dt r width : ℚ)
  | spawn (width : ℚ)

def ObstacleManager.applyOp (m : ObstacleManager) : OMOp → ObstacleManager
  | OMOp.update dt r width => m.update dt r width
  | OMOp.spawn width => m.spawnObstacle width

def runOM (m : ObstacleManager) (ops : List OMOp) : ObstacleManager :=
  ops.foldl ObstacleManager.applyOp m

/-- Total number of obstacle instances owned by the manager. -/
def omCount (m : ObstacleManager) : ℕ :=
  m.activeObstacles.length + m.pool.length

/-! ## Persistence (src/script.js, lines 295 and 442-458)

`localStorage.getItem` yields `none` when the key is absent, `some s` for the
stored string. -/

/-- The JavaScript value held in `this.highScore` after the constructor. -/
inductive StoredHighScore where
  | num (q : ℚ)
  | str (s : String)
  deriving Repr, DecidableEq

/-- Line 295: `this.highScore = localStorage.getItem("highScore") || 0`.
`getItem` returns `null` (falsy) when the key is absent and the stored string
verbatim otherwise; of the strings, exactly the empty string is falsy, so a
non-empty stored string is kept as is. -/
def loadHighScore : Option String → StoredHighScore
  | none => StoredHighScore.num 0
  | some s => if s = "" then StoredHighScore.num 0 else StoredHighScore.str s

/-- Numeric value of a digit run, as accumulated by a base-10 read. -/
def digitsVal (l : List Char) : ℕ :=
  l.foldl (fun a c => 10 * a + (c.toNat - 48)) 0

/-- JSON values, as produced by `JSON.parse`. Object members are kept as
the raw parsed list of key-value pairs. Numbers are exact rationals, per
the file-wide convention for JavaScript numbers (double rounding and the
overflow of huge literals to Infinity are not modelled; no claim evaluates
a non-integer number). -/
inductive JsonVal where
  | null
  | bool (b : Bool)
  | num (q : ℚ)
  | str (s : String)
  | arr (elems : List JsonVal)
  | obj (fields : List (String × JsonVal))

/-- JSON whitespace: space, tab, line feed, carriage return. -/
def jsonWs (c : Char) : Bool :=
  c == ' ' || c == '\t' || c == '\n' || c == '\r'

def skipWs (l : List Char) : List Char :=
  l.dropWhile jsonWs

/-- Value of a hexadecimal digit, if `c` is one. -/
def hexVal? (c : Char) : Option ℕ :=
  if 48 ≤ c.toNat ∧ c.toNat ≤ 57 then some (c.toNat - 48)
  else if 97 ≤ c.toNat ∧ c.toNat ≤ 102 then some (c.toNat - 87)
  else if 65 ≤ c.toNat ∧ c.toNat ≤ 70 then some (c.toNat - 55)
  else none

/-- Body of a JSON string after the opening quote: ordinary characters
(unescaped control characters are rejected, as in JSON), the short escapes,
and `\uXXXX` code units (mapped through `Char.ofNat`; surrogate pairs are
not recombined — no claim evaluates a string containing them). Returns the
content and the input after the closing quote. Fuelled by the input length;
every step consumes at least one character. -/
def parseStringBody : ℕ → List Char → Option (List Char × List Char)
  | 0, _ => none
  | _ + 1, [] => none
  | f + 1, c :: rest =>
    if c = '"' then some ([], rest)
    else if c = '\\' then
      match rest with
      | [] => none
      | e :: rest2 =>
        let esc? : Option Char :=
          if e = '"' then some '"'
          else if e = '\\' then some '\\'
          else if e = '/' then some '/'
          else if e = 'b' then some (Char.ofNat 8)
          else if e = 'f' then some (Char.ofNat 12)
          else if e = 'n' then some '\n'
          else if e = 'r' then some '\r'
          else if e = 't' then some '\t'
          else none
        match esc? with
        | some ch =>
          match parseStringBody f rest2 with
          | some (cs, r) => some (ch :: cs, r)
          | none => none
        | none =>
          if e = 'u' then
            match rest2 with
            | h1 :: h2 :: h3 :: h4 :: rest3 =>
              match hexVal? h1, hexVal? h2, hexVal? h3, hexVal? h4 with
              | some a, some b, some c2, some d =>
                match parseStringBody f rest3 with
                | some (cs, r) => some (Char.ofNat (((a * 16 + b) * 16 + c2) * 16 + d) :: cs, r)
                | none => none
              | _, _, _, _ => none
            | _ => none
          else none
    else if c.toNat < 32 then none
    else
      match parseStringBody f rest with
      | some (cs, r) => some (c :: cs, r)
      | none => none

/-- Exponent part of a JSON number, after the `e`/`E`: optional sign, then
at least one digit. -/
def parseExpPart (l : List Char) : Option (ℤ × List Char) :=
  let sgnNeg : Bool := match l with | '-' :: _ => true | _ => false
  let l1 : List Char :=
    match l with
    | '-' :: rest => rest
    | '+' :: rest => rest
    | _ => l
  let ds := l1.takeWhile Char.isDigit
  if ds.isEmpty then none
  else some (if sgnNeg then -(digitsVal ds : ℤ) else (digitsVal ds : ℤ), l1.dropWhile Char.isDigit)

/-- Rational value of a parsed JSON number with a fraction or exponent
part: `±(ip + 0.frac) * 10^ex`. -/
def ratOfDigits (neg : Bool) (ip : ℕ) (frac : List Char) (ex : ℤ) : ℚ :=
  let base : ℚ := (ip : ℚ) + (digitsVal frac : ℚ) / (10 : ℚ) ^ frac.length
  let scaled : ℚ := if 0 ≤ ex then base * (10 : ℚ) ^ ex.toNat else base / (10 : ℚ) ^ (-ex).toNat
  if neg then -scaled else scaled

/-- A JSON number: optional minus, an integer part with no leading zero,
an optional fraction, an optional exponent — the grammar `JSON.parse`
enforces (`01`, `.5`, `1.` are all rejected). A plain integer literal is
built directly by a cast; the branches with a fraction or exponent use
field arithmetic. -/
def parseNumber (l : List Char) : Option (ℚ × List Char) :=
  let neg : Bool := match l with | '-' :: _ => true | _ => false
  let l1 : List Char := match l with | '-' :: rest => rest | _ => l
  let ip? : Option (ℕ × List Char) :=
    match l1 with
    | '0' :: rest =>
      match rest with
      | c :: _ => if c.isDigit then none else some (0, rest)
      | [] => some (0, [])
    | c :: _ =>
      if c.isDigit then some (digitsVal (l1.takeWhile Char.isDigit), l1.dropWhile Char.isDigit)
      else none
    | [] => none
  match ip? with
  | none => none
  | some (ip, l2) =>
    let frac? : Option (List Char × List Char) :=
      match l2 with
      | '.' :: rest =>
        let ds := rest.takeWhile Char.isDigit
        if ds.isEmpty then none else some (ds, rest.dropWhile Char.isDigit)
      | _ => some ([], l2)
    match frac? with
    | none => none
    | some (frac, l3) =>
      match l3 with
      | 'e' :: rest =>
        match parseExpPart rest with
        | none => none
        | some (ex, l4) => some (ratOfDigits neg ip frac ex, l4)
      | 'E' :: rest =>
        match parseExpPart rest with
        | none => none
        | some (ex, l4) => some (ratOfDigits neg ip frac ex, l4)
      | _ =>
        if frac.isEmpty then some (if neg then -(ip : ℚ) else (ip : ℚ), l3)
        else some (ratOfDigits neg ip frac 0, l3)

/-- Parsing mode of `parseStep`: a single value, the elements of an array
after its first non-whitespace character, or the members of an object. -/
inductive JPMode where
  | value
  | elems
  | members

/-- Result of `parseStep`, matching its mode. -/
inductive JPOut where
  | val (v : JsonVal)
  | elems (l : List JsonVal)
  | members (l : List (String × JsonVal))

/-- Recursive-descent JSON parsing, fuelled: a value is `null`, `true`,
`false`, a string, an array, an object or a number; array elements and
object members are comma-separated and closed by `]` / `}`, with JSON
whitespace allowed around every token. -/
def parseStep : ℕ → JPMode → List Char → Option (JPOut × List Char)
  | 0, _, _ => none
  | f + 1, JPMode.value, l =>
    match skipWs l with
    | 'n' :: 'u' :: 'l' :: 'l' :: rest => some (JPOut.val JsonVal.null, rest)
    | 't' :: 'r' :: 'u' :: 'e' :: rest => some (JPOut.val (JsonVal.bool true), rest)
    | 'f' :: 'a' :: 'l' :: 's' :: 'e' :: rest => some (JPOut.val (JsonVal.bool false), rest)
    | '"' :: rest =>
      match parseStringBody (rest.length + 1) rest with
      | some (cs, rest2) => some (JPOut.val (JsonVal.str (String.mk cs)), rest2)
      | none => none
    | '[' :: rest =>
      match skipWs rest with
      | ']' :: rest2 => some (JPOut.val (JsonVal.arr []), rest2)
      | rest2 =>
        match parseStep f JPMode.elems rest2 with
        | some (JPOut.elems es, rest3) => some (JPOut.val (JsonVal.arr es), rest3)
        | _ => none
    | '{' :: rest =>
      match skipWs rest with
      | '}' :: rest2 => some (JPOut.val (JsonVal.obj []), rest2)
      | rest2 =>
        match parseStep f JPMode.members rest2 with
        | some (JPOut.members ms, rest3) => some (JPOut.val (JsonVal.obj ms), rest3)
        | _ => none
    | l1 =>
      match parseNumber l1 with
      | some (q, rest) => some (JPOut.val (JsonVal.num q), rest)
      | none => none
  | f + 1, JPMode.elems, l =>
    match parseStep f JPMode.value l with
    | some (JPOut.val v, rest) =>
      match skipWs rest with
      | ',' :: rest2 =>
        match parseStep f JPMode.elems rest2 with
        | some (JPOut.elems es, rest3) => some (JPOut.elems (v :: es), rest3)
        | _ => none
      | ']' :: rest2 => some (JPOut.elems [v], rest2)
      | _ => none
    | _ => none
  | f + 1, JPMode.members, l =>
    match skipWs l with
    | '"' :: rest =>
      match parseStringBody (rest.length + 1) rest with
      | some (cs, rest2) =>
        match skipWs rest2 with
        | ':' :: rest3 =>
          match parseStep f JPMode.value rest3 with
          | some (JPOut.val v, rest4) =>
            match skipWs rest4 with
            | ',' :: rest5 =>
              match parseStep f JPMode.members rest5 with
              | some (JPOut.members ms, rest6) => some (JPOut.members ((String.mk cs, v) :: ms), rest6)
              | _ => none
            | '}' :: rest5 => some (JPOut.members [(String.mk cs, v)], rest5)
            | _ => none
          | _ => none
        | _ => none
      | none => none
    | _ => none

/-- `JSON.parse` on a string: one value, optionally surrounded by
whitespace, nothing after it; any other input throws, modelled as
`Except.error`. The fuel bound exceeds the recursion depth, which grows by
at most two per input character. -/
def jsonParse (s : String) : Except Unit JsonVal :=
  match parseStep (2 * s.length + 4) JPMode.value s.data with
  | some (JPOut.val v, rest) =>
    if (skipWs rest).isEmpty then Except.ok v else Except.error ()
  | _ => Except.error ()

/-- JavaScript falsiness of a `JSON.parse` result: `null`, `false`, `0`
(including `-0`) and the empty string; arrays and objects are always
truthy, even when empty. (`undefined` and `NaN` cannot come out of
`JSON.parse`.) -/
def JsonVal.isFalsy : JsonVal → Bool
  | JsonVal.null => true
  | JsonVal.bool b => !b
  | JsonVal.num q => decide (q = 0)
  | JsonVal.str s => s == ""
  | JsonVal.arr _ => false
  | JsonVal.obj _ => false

/-- Lines 443 / 451: `JSON.parse(localStorage.getItem("leaderboard")) || []`.
An absent key gives `getItem` = `null`, which `JSON.parse` coerces to the
string `"null"`; a falsy parse result (`null`, `false`, `0`, `""`) is
replaced by `[]` by the `||`; a truthy result — any array or object, any
other number or string — is kept as is; a string `JSON.parse` rejects
throws, modelled as `Except.error`. -/
def loadLeaderboard (stored : Option String) : Except Unit JsonVal :=
  (jsonParse (match stored with | none => "null" | some s => s)).map
    fun v => if v.isFalsy then JsonVal.arr [] else v

/-- Reads a parsed member list back as a list of integers, when every
element is an integer-valued number. -/
def jsonInts? : List JsonVal → Option (List ℤ)
  | [] => some []
  | JsonVal.num q :: rest =>
    if q.den = 1 then (jsonInts? rest).map fun t => q.num :: t else none
  | _ => none

/-- The loaded value as an integer array, when it is one. Every value this
program writes under the `leaderboard` key is one (each stored score is a
`Math.floor` result serialized by `JSON.stringify`, lines 433 and 446-447);
on a loaded value of any other shape the array operations of lines 444-446
throw, which `insertStored` below reports as an error. -/
def JsonVal.asIntList? : JsonVal → Option (List ℤ)
  | JsonVal.arr l => jsonInts? l
  | _ => none

/-- The list-level body of `Game.updateLeaderboard` (lines 444-446): push the
score at the end, sort descending (`sort((a, b) => b - a)`), keep the top 5
(`slice(0, 5)`). -/
def updateLeaderboard (board : List ℤ) (score : ℤ) : List ℤ :=
  ((board ++ [score]).insertionSort (fun a b => b ≤ a)).take 5

/-- Line 447: `JSON.stringify` of an integer array. -/
def stringifyLB (l : List ℤ) : String :=
  "[" ++ String.intercalate "," (l.map toString) ++ "]"

/-- One full `Game.updateLeaderboard(score)` call against the stored string
(lines 442-448): load, push/sort/truncate, re-serialize. A loaded value on
which the array operations would throw (a truthy non-array, or an array
holding non-integers — shapes this program never writes) is reported as an
error. -/
def insertStored (stored : Option String) (score : ℤ) : Except Unit String :=
  match loadLeaderboard stored with
  | Except.error e => Except.error e
  | Except.ok v =>
    match v.asIntList? with
    | some board => Except.ok (stringifyLB (updateLeaderboard board score))
    | none => Except.error ()

/-- Insert scores one at a time through the persisted representation,
starting from a given stored value. -/
def runInserts (start : Option String) (scores : List ℤ) : Except Unit (Option String) :=
  scores.foldl
    (fun acc sc =>
      match acc with
      | Except.error e => Except.error e
      | Except.ok st =>
        match insertStored st sc with
        | Except.error e => Except.error e
        | Except.ok s => Except.ok (some s))
    (Except.ok start)

/-! ## Game (src/script.js, `class Game`, lines 263-491)

Only the gameplay state is modelled; DOM bookkeeping, audio and the
persistence side effects of `gameOver` (which are the pure functions above)
are omitted. The constructor's `highScore` is taken to be numeric here; the
string case of `localStorage.getItem("highScore") || 0` is handled by
`loadHighScore`. -/

structure Game where
  state : GState
  score : ℚ
  highScore : ℚ
  level : ℕ
  obstacleSpeed : ℚ
  spawnInterval : ℚ
  lastFrameTime : ℚ
  character : Character
  obstacleManager : ObstacleManager

/-- Per-frame oracle inputs of `Game.gameLoop`: the `requestAnimationFrame`
timestamp (ms), the `Math.random()` draw used by the obstacle manager, the
container's `offsetWidth`, and the `getBoundingClientRect` bounds of the
character and of each obstacle element. -/
structure TickInput where
  currentTime : ℚ
  rand : ℚ
  width : ℚ
  charRect : Rect
  obsRect : ℕ → Rect

/-- The constructor state with no persisted high score (lines 294-307). -/
def Game.fresh : Game :=
  { state := GState.home
    score := 0
    highScore := 0
    level := 1
    obstacleSpeed := INITIAL_OBSTACLE_SPEED
    spawnInterval := INITIAL_SPAWN_INTERVAL
    lastFrameTime := 0
    character := Character.init GROUND_LEVEL
    obstacleManager := ObstacleManager.init INITIAL_OBSTACLE_SPEED INITIAL_SPAWN_INTERVAL }

/-- `Game.startGame` (lines 346-353): enter Running and re-anchor the frame
time to `performance.now()`. -/
def Game.startGame (g : Game) (now : ℚ) : Game :=
  { g with state := GState.running, lastFrameTime := now }

/-- `Game.levelUp` (lines 406-410): increment the level and the `Game`'s own
`obstacleSpeed` field. (Nothing copies this field to
`obstacleManager.obstacleSpeed`.) -/
def Game.levelUp (g : Game) : Game :=
  { g with level := g.level + 1, obstacleSpeed := g.obstacleSpeed + 1 }

/-- `Game.gameOver` (lines 430-440), gameplay-state part: enter GameOver.
Its leaderboard persistence is `insertStored` above; the DOM/audio/vibration
calls have no gameplay-state effect. -/
def Game.gameOver (g : Game) : Game :=
  { g with state := GState.gameover }

/-- `Game.pause` (lines 412-418), gameplay-state part: enter Paused. The
remaining statements only toggle button visibility and music. -/
def Game.pause (g : Game) : Game :=
  { g with state := GState.paused }

/-- `Game.resume` (lines 420-428), gameplay-state part: re-enter Running and
re-anchor `lastFrameTime` to `performance.now()` (so paused wall-clock time
is not simulated). -/
def Game.resume (g : Game) (now : ℚ) : Game :=
  { g with state := GState.running, lastFrameTime := now }

/-- One `Game.gameLoop(currentTime)` frame (lines 363-404): return at once
unless Running; otherwise advance the character, advance the obstacle
manager with `deltaTime = (currentTime - lastFrameTime) / 1000`; then scan
the active obstacles for an overlap with the character and, on the first
hit, transition to GameOver and return; otherwise accrue score, raise the
high score to `Math.floor(score)` when exceeded, recompute the spawn
interval and copy it to the manager, and level up when `Math.floor(score)`
is a nonzero multiple of 1000. -/
def Game.gameLoop (g : Game) (inp : TickInput) : Game :=
  if g.state ≠ GState.running then g
  else
    let dt := (inp.currentTime - g.lastFrameTime) / 1000
    let om := g.obstacleManager.update dt inp.rand inp.width
    let g1 : Game :=
      { g with lastFrameTime := inp.currentTime
               character := g.character.update
               obstacleManager := om }
    if om.activeObstacles.any (fun o => collides inp.charRect (inp.obsRect o.elem)) then
      g1.gameOver
    else
      let score := g1.score + dt * SCORE_RATE
      let hs := if g1.highScore < score then ((⌊score⌋ : ℤ) : ℚ) else g1.highScore
      let si := max MIN_SPAWN_INTERVAL (INITIAL_SPAWN_INTERVAL - score / 5)
      let g2 : Game :=
        { g1 with score := score
                  highScore := hs
                  spawnInterval := si
                  obstacleManager := { om with spawnInterval := si } }
      if ⌊score⌋ % 1000 = 0 ∧ ⌊score⌋ ≠ 0 then g2.levelUp else g2

/-- The difficulty invariant of the game loop: the spawn interval always
matches `max(MIN_SPAWN_INTERVAL, INITIAL_SPAWN_INTERVAL - score / 5)`
(lines 393-396). -/
def spawnInv (g : Game) : Prop :=
  g.spawnInterval = max MIN_SPAWN_INTERVAL (INITIAL_SPAWN_INTERVAL - g.score / 5)

/-- The physics invariant maintained by the character: gravity is the
(negative) configuration constant, the ground baseline is the configured
one, the position never drops below it, and a character whose jump flag is
clear rests exactly on the baseline with zero velocity. -/
def CharSafe (c : Character) : Prop :=
  c.gravity < 0 ∧ c.groundLevel = GROUND_LEVEL ∧ c.groundLevel ≤ c.yPos ∧
    (c.isJumping = false → c.yPos = c.groundLevel ∧ c.velocityY = 0)

/-- Descending order on scores, as induced by the comparator
`(a, b) => b - a` of line 445. -/
instance : IsTotal ℤ (fun a b : ℤ => b ≤ a) :=
  ⟨fun a b => le_total b a⟩

instance : IsTrans ℤ (fun a b : ℤ => b ≤ a) :=
  ⟨fun _ _ _ h1 h2 => le_trans h2 h1⟩

/-! ## Theorems -/

theorem charSafe_init : CharSafe (Character.init GROUND_LEVEL) := by
  refine ⟨?_, rfl, le_refl _, fun _ => ⟨rfl, rfl⟩⟩
  norm_num [Character.init, CHARACTER_GRAVITY]

theorem charSafe_applyOp (c : Character) (op : CharOp) (h : CharSafe c) :
    CharSafe (c.applyOp op) := by
  obtain ⟨hg, hgl, hy, hj⟩ := h
  cases op with
  | jump =>
    unfold Character.applyOp Character.jump
    split_ifs with hc
    · exact ⟨hg, hgl, hy, hj⟩
    · refine ⟨hg, hgl, hy, fun hfalse => ?_⟩
      simp at hfalse
  | update =>
    unfold Character.applyOp Character.update
    dsimp only
    generalize (if c.yPos = c.groundLevel then c.coyoteThreshold
      else if 0 < c.coyoteCounter then c.coyoteCounter - 1 else c.coyoteCounter) = cc
    split_ifs with hclamp
    · exact ⟨hg, hgl, le_refl _, fun _ => ⟨rfl, rfl⟩⟩
    · refine ⟨hg, hgl, not_lt.mp hclamp, fun hf => ?_⟩
      obtain ⟨hyy, hv⟩ := hj hf
      exfalso
      apply hclamp
      rw [hyy, hv]
      linarith

theorem charSafe_run (ops : List CharOp) :
    ∀ c, CharSafe c → CharSafe (List.foldl Character.applyOp c ops) := by
  induction ops with
  | nil => exact fun _ h => h
  | cons op rest ih => exact fun c h => ih _ (charSafe_applyOp c op h)

/-- C1 (amended): for every sequence of `Character.update()`/`jump()` calls
from the initial grounded state, the vertical position never drops below the
ground baseline, and whenever the jump flag is clear the character rests
exactly on the baseline with zero velocity. (The original biconditional
"velocity is zero iff grounded" fails: at the apex of a jump the velocity is
exactly zero while airborne — see the counterexample.) -/
theorem character_ground_invariant (ops : List CharOp) :
    GROUND_LEVEL ≤ (runChar (Character.init GROUND_LEVEL) ops).yPos ∧
    ((runChar (Character.init GROUND_LEVEL) ops).isJumping = false →
      (runChar (Character.init GROUND_LEVEL) ops).yPos = GROUND_LEVEL ∧
      (runChar (Character.init GROUND_LEVEL) ops).velocityY = 0) := by
  have h : CharSafe (runChar (Character.init GROUND_LEVEL) ops) :=
    charSafe_run ops (Character.init GROUND_LEVEL) charSafe_init
  obtain ⟨_, hgl, hy, hj⟩ := h
  refine ⟨le_of_eq_of_le hgl.symm hy, fun hf => ?_⟩
  obtain ⟨h1, h2⟩ := hj hf
  exact ⟨h1.trans hgl, h2⟩

/-- C1 witness: the empty call sequence leaves the character on the baseline
at rest. -/
theorem character_ground_invariant_witness :
    (runChar (Character.init GROUND_LEVEL) []).yPos = GROUND_LEVEL ∧
    (runChar (Character.init GROUND_LEVEL) []).velocityY = 0 :=
  (character_ground_invariant []).2 rfl

/-- C1 counterexample: after a jump from the ground followed by 20 updates,
the velocity is exactly zero (12 − 20 · 0.6 = 0, the jump apex) while the
position is 124, far above the baseline of 10 — so "velocity is zero iff
grounded" is false on the code. -/
theorem velocity_zero_iff_grounded_fails :
    (runChar (Character.init GROUND_LEVEL)
        (CharOp.jump :: List.replicate 20 CharOp.update)).velocityY = 0 ∧
    (runChar (Character.init GROUND_LEVEL)
        (CharOp.jump :: List.replicate 20 CharOp.update)).yPos ≠ GROUND_LEVEL := by
  norm_num [runChar, List.replicate, List.foldl, Character.applyOp, Character.update,
    Character.jump, Character.init, GROUND_LEVEL, CHARACTER_GRAVITY, CHARACTER_JUMP_POWER,
    COYOTE_THRESHOLD]

/-- C2: `Character.jump()` is a no-op (state unchanged, no `playerJump`
event) exactly when the jump flag is set with the coyote counter at or below
zero; in every other state it sets the velocity to the jump power, sets the
jump flag, zeroes the coyote counter and dispatches `playerJump`. -/
theorem jump_spec (c : Character) :
    (c.isJumping = true ∧ c.coyoteCounter ≤ 0 →
      c.jump = { char := c, jumped := false }) ∧
    (¬(c.isJumping = true ∧ c.coyoteCounter ≤ 0) →
      c.jump = { char := { c with
                   isJumping := true, velocityY := c.jumpPower, coyoteCounter := 0 },
                 jumped := true }) := by
  constructor
  · intro h
    unfold Character.jump
    exact if_pos h
  · intro h
    unfold Character.jump
    exact if_neg h

/-- C2 witness: jumping from the freshly constructed (grounded) character
takes the active branch. -/
theorem jump_spec_witness :
    (Character.init GROUND_LEVEL).jump =
      { char := { Character.init GROUND_LEVEL with
          isJumping := true, velocityY := (Character.init GROUND_LEVEL).jumpPower,
          coyoteCounter := 0 },
        jumped := true } :=
  (jump_spec (Character.init GROUND_LEVEL)).2 (by decide)

/-- C3 counterexample: the overlap predicate is not symmetric. With the
character bounds entirely above the obstacle (bottom 5 vs top 6) the test is
false one way round but true the other, because the vertical conjunct only
compares the first rectangle's bottom against the second's top. -/
theorem collides_not_symmetric :
    collides { left := 0, right := 10, top := 6, bottom := 20 }
        { left := 0, right := 10, top := 0, bottom := 5 } = true ∧
    collides { left := 0, right := 10, top := 0, bottom := 5 }
        { left := 0, right := 10, top := 6, bottom := 20 } = false := by
  constructor <;> norm_num [collides]

/-- C3 (amended): the horizontal conjuncts of the overlap predicate are
symmetric in the two rectangles (the vertical conjunct is not — see the
counterexample), and in any frame in which at least one active obstacle
satisfies the predicate against the character the collision loop calls
`gameOver()` exactly once, while a frame with no satisfying obstacle calls
it zero times. -/
theorem collision_gameOver_once :
    (∀ a b : Rect,
      (a.right > b.left ∧ a.left < b.right) ↔ (b.right > a.left ∧ b.left < a.right)) ∧
    (∀ (charRect : Rect) (l : List Rect),
      (∃ r ∈ l, collides charRect r = true) → collisionLoop charRect l = 1) ∧
    (∀ (charRect : Rect) (l : List Rect),
      (∀ r ∈ l, collides charRect r = false) → collisionLoop charRect l = 0) := by
  refine ⟨fun a b => ⟨fun h => ⟨h.2, h.1⟩, fun h => ⟨h.2, h.1⟩⟩, ?_, ?_⟩
  · intro cr l h
    induction l with
    | nil => simp at h
    | cons x xs ih =>
      obtain ⟨r, hr, hc⟩ := h
      by_cases hx : collides cr x = true
      · simp only [collisionLoop, hx, if_true]
      · have hx' : collides cr x = false := by
          simpa using hx
        rcases List.mem_cons.mp hr with rfl | hmem
        · exact absurd hc hx
        · simp only [collisionLoop, hx', Bool.false_eq_true, if_false]
          exact ih ⟨r, hmem, hc⟩
  · intro cr l h
    induction l with
    | nil => rfl
    | cons x xs ih =>
      have hx := h x (List.mem_cons_self x xs)
      simp only [collisionLoop, hx, Bool.false_eq_true, if_false]
      exact ih fun r hr => h r (List.mem_cons_of_mem x hr)

/-- C3 witness: with the character overlapping the single active obstacle,
the loop calls `gameOver()` exactly once. -/
theorem collision_gameOver_once_witness :
    collisionLoop { left := 0, right := 10, top := 6, bottom := 20 }
      [{ left := 0, right := 10, top := 0, bottom := 5 }] = 1 :=
  collision_gameOver_once.2.1 _ _
    ⟨{ left := 0, right := 10, top := 0, bottom := 5 },
      List.mem_singleton.mpr rfl, by norm_num [collides]⟩

/-- C6: inserting the scores 50, 200, 10, 300, 150, 400 one at a time into
an initially empty stored leaderboard — each insertion parsing the stored
JSON string, pushing, sorting descending, truncating to 5 and
re-serializing — ends with the stored string `[400,300,200,150,50]`; and
after every update the board has at most 5 entries and is sorted in
descending order. -/
theorem leaderboard_update_spec :
    runInserts none [50, 200, 10, 300, 150, 400] = Except.ok (some "[400,300,200,150,50]") ∧
    ∀ (board : List ℤ) (score : ℤ),
      (updateLeaderboard board score).length ≤ 5 ∧
      List.Sorted (fun a b : ℤ => b ≤ a) (updateLeaderboard board score) := by
  refine ⟨rfl, fun board score => ⟨?_, ?_⟩⟩
  · unfold updateLeaderboard
    rw [List.length_take]
    exact min_le_left _ _
  · unfold updateLeaderboard
    exact List.Pairwise.sublist (List.take_sublist 5 _) (List.sorted_insertionSort _ _)

/-- C8: for every random draw and every spawn-interval configuration, the
spawn delay computed by `ObstacleManager.update` is at least the minimum gap
field, and that field is the constant 1500 at construction. -/
theorem spawn_delay_min_gap :
    (∀ r spawnInterval minSpawnGap : ℚ,
      minSpawnGap ≤ spawnDelayOf r spawnInterval minSpawnGap) ∧
    ∀ speed spawnInterval : ℚ,
      (ObstacleManager.init speed spawnInterval).minSpawnGap = 1500 :=
  ⟨fun _ _ g => le_max_right _ g, fun _ _ => rfl⟩

theorem stepObstacles_length (speed dt : ℚ) (l : List Obstacle) :
    (stepObstacles speed dt l).1.length + (stepObstacles speed dt l).2.length = l.length := by
  induction l with
  | nil => rfl
  | cons o rest ih =>
    unfold stepObstacles
    dsimp only
    split_ifs with h
    · simp only [List.length_append, List.length_cons, List.length_nil]
      omega
    · simp only [List.length_cons]
      omega

theorem omCount_spawnObstacle (m : ObstacleManager) (w : ℚ) :
    omCount m ≤ omCount (m.spawnObstacle w) := by
  unfold ObstacleManager.spawnObstacle omCount
  cases h : m.pool.getLast? with
  | none =>
    simp only [List.length_append, List.length_cons, List.length_nil]
    omega
  | some e =>
    have hne : m.pool ≠ [] := by
      intro he
      rw [he] at h
      cases h
    have hp : 1 ≤ m.pool.length := List.length_pos.mpr hne
    simp only [List.length_append, List.length_dropLast, List.length_cons, List.length_nil]
    omega

theorem omCount_timeSinceLastSpawn (m : ObstacleManager) (t : ℚ) :
    omCount { m with timeSinceLastSpawn := t } = omCount m := rfl

theorem omCount_update (m : ObstacleManager) (dt r width : ℚ) :
    omCount m ≤ omCount (m.update dt r width) := by
  have hlen := stepObstacles_length m.obstacleSpeed dt m.activeObstacles
  unfold ObstacleManager.update
  dsimp only
  split_ifs with h
  · rw [omCount_timeSinceLastSpawn]
    refine le_trans (le_of_eq ?_) (omCount_spawnObstacle _ _)
    unfold omCount
    dsimp only
    rw [List.length_append]
    omega
  · apply le_of_eq
    unfold omCount
    dsimp only
    rw [List.length_append]
    omega

/-- C9: across any sequence of `update(deltaTime)` and `spawnObstacle()`
calls (no `reset()`), the total number of obstacle instances
`activeObstacles.length + pool.length` never decreases: recycling moves an
element from the active list to the pool, and spawning either moves one back
or creates a fresh one. -/
theorem obstacle_count_monotone :
    ∀ (m : ObstacleManager) (ops : List OMOp), omCount m ≤ omCount (runOM m ops) := by
  intro m ops
  induction ops generalizing m with
  | nil => exact le_refl _
  | cons op rest ih =>
    calc omCount m
        ≤ omCount (m.applyOp op) := by
          cases op with
          | update dt r width => exact omCount_update m dt r width
          | spawn width => exact omCount_spawnObstacle m width
      _ ≤ omCount (runOM (m.applyOp op) rest) := ih _
      _ = omCount (runOM m (op :: rest)) := rfl

theorem spawnObstacle_obstacleSpeed (m : ObstacleManager) (w : ℚ) :
    (m.spawnObstacle w).obstacleSpeed = m.obstacleSpeed := by
  unfold ObstacleManager.spawnObstacle
  cases h : m.pool.getLast? <;> simp only [h]

theorem update_obstacleSpeed (m : ObstacleManager) (dt r width : ℚ) :
    (m.update dt r width).obstacleSpeed = m.obstacleSpeed := by
  unfold ObstacleManager.update
  dsimp only
  split_ifs with h
  · exact spawnObstacle_obstacleSpeed _ _
  · rfl

/-- C4 (amended): in a Running tick without collision, a level-up occurs
exactly when the integer floor of the updated score is a nonzero multiple of
1000 (so it re-fires on consecutive ticks that stay inside the same
thousand, and is skipped when the score jumps over a multiple between
ticks); each level-up increments the `Game`'s `level` and `obstacleSpeed`
fields by exactly 1, but the `ObstacleManager`'s `obstacleSpeed` — the speed
actually used to advance active obstacles — is never updated. -/
theorem levelUp_behavior (g : Game) (inp : TickInput) (s : ℚ)
    (hrun : g.state = GState.running)
    (hnocol : ((g.obstacleManager.update ((inp.currentTime - g.lastFrameTime) / 1000)
          inp.rand inp.width).activeObstacles.any
        fun o => collides inp.charRect (inp.obsRect o.elem)) = false)
    (hs : s = g.score + (inp.currentTime - g.lastFrameTime) / 1000 * SCORE_RATE) :
    (g.gameLoop inp).score = s ∧
    ((⌊s⌋ % 1000 = 0 ∧ ⌊s⌋ ≠ 0) →
      (g.gameLoop inp).level = g.level + 1 ∧
      (g.gameLoop inp).obstacleSpeed = g.obstacleSpeed + 1 ∧
      (g.gameLoop inp).obstacleManager.obstacleSpeed = g.obstacleManager.obstacleSpeed) ∧
    (¬(⌊s⌋ % 1000 = 0 ∧ ⌊s⌋ ≠ 0) →
      (g.gameLoop inp).level = g.level ∧
      (g.gameLoop inp).obstacleSpeed = g.obstacleSpeed ∧
      (g.gameLoop inp).obstacleManager.obstacleSpeed = g.obstacleManager.obstacleSpeed) := by
  subst hs
  have hstate : ¬(g.state ≠ GState.running) := by simp [hrun]
  unfold Game.gameLoop
  rw [if_neg hstate]
  dsimp only
  simp only [hnocol, Bool.false_eq_true, if_false]
  by_cases hlv : (⌊g.score + (inp.currentTime - g.lastFrameTime) / 1000 * SCORE_RATE⌋ % 1000 = 0 ∧
      ⌊g.score + (inp.currentTime - g.lastFrameTime) / 1000 * SCORE_RATE⌋ ≠ 0)
  · rw [if_pos hlv]
    exact ⟨rfl, fun _ => ⟨rfl, rfl, update_obstacleSpeed _ _ _ _⟩,
      fun hyp => absurd hlv hyp⟩
  · rw [if_neg hlv]
    exact ⟨rfl, fun hyp => absurd hyp hlv,
      fun _ => ⟨rfl, rfl, update_obstacleSpeed _ _ _ _⟩⟩

/-- C4 witness: from score 1000, a 50 ms tick (score 1000 → 1000.5, floor
1000, a nonzero multiple of 1000) levels up: the level and the `Game` speed
field rise by 1 while the manager speed that moves obstacles stays at its
initial value. -/
theorem levelUp_behavior_witness :
    ({ Game.fresh with state := GState.running, score := 1000 }.gameLoop
        { currentTime := 50, rand := 0, width := 600, charRect := ⟨0, 0, 0, 0⟩,
          obsRect := fun _ => ⟨0, 0, 0, 0⟩ }).level = 2 ∧
    ({ Game.fresh with state := GState.running, score := 1000 }.gameLoop
        { currentTime := 50, rand := 0, width := 600, charRect := ⟨0, 0, 0, 0⟩,
          obsRect := fun _ => ⟨0, 0, 0, 0⟩ }).obstacleSpeed = INITIAL_OBSTACLE_SPEED + 1 ∧
    ({ Game.fresh with state := GState.running, score := 1000 }.gameLoop
        { currentTime := 50, rand := 0, width := 600, charRect := ⟨0, 0, 0, 0⟩,
          obsRect := fun _ => ⟨0, 0, 0, 0⟩ }).obstacleManager.obstacleSpeed =
      INITIAL_OBSTACLE_SPEED := by
  have h := levelUp_behavior { Game.fresh with state := GState.running, score := 1000 }
      { currentTime := 50, rand := 0, width := 600, charRect := ⟨0, 0, 0, 0⟩,
        obsRect := fun _ => ⟨0, 0, 0, 0⟩ } (2001 / 2) rfl
      (by norm_num [ObstacleManager.update, ObstacleManager.init, Game.fresh,
        stepObstacles, spawnDelayOf, ObstacleManager.spawnObstacle,
        INITIAL_OBSTACLE_SPEED, INITIAL_SPAWN_INTERVAL, FPS_SCALE])
      (by norm_num [Game.fresh, SCORE_RATE])
  have hc := h.2.1 (by norm_num)
  exact ⟨hc.1, hc.2.1, hc.2.2⟩

/-- C4 counterexample: (a) one 300 ms Running tick from score 999 moves the
floor of the score from 999 to 1002, crossing the multiple 1000, yet no
level-up occurs (the level stays 1) because 1002 is not an exact multiple;
(b) a 50 ms tick from score 1000 does level up (level 1 → 2) yet leaves the
obstacle speed used to advance active obstacles (the manager field)
unchanged at 5. Both halves contradict "a level-up occurs exactly when the
floor crosses a multiple of 1000 and increments the obstacle speed used to
advance active obstacles". -/
theorem levelUp_crossing_fails :
    (({ Game.fresh with state := GState.running, score := 999 }.gameLoop
        { currentTime := 300, rand := 0, width := 600, charRect := ⟨0, 0, 0, 0⟩,
          obsRect := fun _ => ⟨0, 0, 0, 0⟩ }).score = 1002 ∧
      ({ Game.fresh with state := GState.running, score := 999 }.gameLoop
        { currentTime := 300, rand := 0, width := 600, charRect := ⟨0, 0, 0, 0⟩,
          obsRect := fun _ => ⟨0, 0, 0, 0⟩ }).level = 1) ∧
    (({ Game.fresh with state := GState.running, score := 1000 }.gameLoop
        { currentTime := 50, rand := 0, width := 600, charRect := ⟨0, 0, 0, 0⟩,
          obsRect := fun _ => ⟨0, 0, 0, 0⟩ }).level = 2 ∧
      ({ Game.fresh with state := GState.running, score := 1000 }.gameLoop
        { currentTime := 50, rand := 0, width := 600, charRect := ⟨0, 0, 0, 0⟩,
          obsRect := fun _ => ⟨0, 0, 0, 0⟩ }).obstacleManager.obstacleSpeed =
        { Game.fresh with state := GState.running, score := 1000 }.obstacleManager.obstacleSpeed) := by
  refine ⟨⟨?_, ?_⟩, ⟨?_, ?_⟩⟩ <;>
    norm_num [Game.gameLoop, Game.fresh, Game.levelUp, Game.gameOver,
      ObstacleManager.update, ObstacleManager.init, ObstacleManager.spawnObstacle,
      stepObstacles, spawnDelayOf, Character.update, Character.init, collides,
      GROUND_LEVEL, CHARACTER_GRAVITY, CHARACTER_JUMP_POWER, COYOTE_THRESHOLD,
      INITIAL_OBSTACLE_SPEED, INITIAL_SPAWN_INTERVAL, MIN_SPAWN_INTERVAL,
      SCORE_RATE, FPS_SCALE]

/-- C5 (amended): a missing high score loads as the number 0 and a missing
leaderboard as the empty list; an empty-string high score also falls back
to 0, and a stored leaderboard string that is valid JSON with a falsy value
(such as `"0"` or `"false"`) is likewise defaulted to the empty list by the
`|| []`, while a valid array string (whitespace and all) loads as that
array. But corrupt state is not uniformly defaulted: any non-empty stored
high-score string is kept verbatim instead of 0, and there are stored
leaderboard strings — `"garbage"` among them — that `JSON.parse` rejects,
so loading throws instead of defaulting. -/
theorem storage_load_behavior :
    loadHighScore none = StoredHighScore.num 0 ∧
    loadHighScore (some "") = StoredHighScore.num 0 ∧
    (∀ s : String, s ≠ "" → loadHighScore (some s) = StoredHighScore.str s) ∧
    loadLeaderboard none = Except.ok (JsonVal.arr []) ∧
    loadLeaderboard (some "0") = Except.ok (JsonVal.arr []) ∧
    loadLeaderboard (some "false") = Except.ok (JsonVal.arr []) ∧
    loadLeaderboard (some " [1,2]") = Except.ok (JsonVal.arr [JsonVal.num 1, JsonVal.num 2]) ∧
    loadLeaderboard (some "garbage") = Except.error () := by
  refine ⟨rfl, rfl, fun s hs => ?_, rfl, rfl, rfl, rfl, rfl⟩
  show (if s = "" then StoredHighScore.num 0 else StoredHighScore.str s) = StoredHighScore.str s
  rw [if_neg hs]

/-- C5 witness: a concrete corrupt high-score string is kept verbatim. -/
theorem storage_load_behavior_witness :
    loadHighScore (some "abc") = StoredHighScore.str "abc" :=
  storage_load_behavior.2.2.1 "abc" (by decide)

/-- C5 counterexample: for the stored string "garbage" the high score does
not default to 0 (it is kept as the string itself), and loading the
leaderboard fails with an uncaught parse error instead of defaulting to the
empty list — contradicting "never fails … defaults … for every string". -/
theorem corrupt_storage_not_defaulted :
    loadHighScore (some "garbage") ≠ StoredHighScore.num 0 ∧
    loadLeaderboard (some "garbage") = Except.error () := by
  exact ⟨by decide, rfl⟩

/-- C7: the spawn-interval invariant `spawnInterval =
max(MIN_SPAWN_INTERVAL, INITIAL_SPAWN_INTERVAL - score / 5)` holds of the
fresh game and is preserved by every `gameLoop` tick (in a non-collision
Running tick it is re-established from the updated score; other ticks touch
neither field); numerically, at score 2000 the formula gives 1600 and at
score 6000 it gives the floor 800. -/
theorem spawn_interval_formula :
    spawnInv Game.fresh ∧
    (∀ (g : Game) (inp : TickInput), spawnInv g → spawnInv (g.gameLoop inp)) ∧
    max MIN_SPAWN_INTERVAL (INITIAL_SPAWN_INTERVAL - 2000 / 5) = 1600 ∧
    max MIN_SPAWN_INTERVAL (INITIAL_SPAWN_INTERVAL - 6000 / 5) = 800 := by
  refine ⟨?_, ?_, ?_, ?_⟩
  · unfold spawnInv Game.fresh
    norm_num [MIN_SPAWN_INTERVAL, INITIAL_SPAWN_INTERVAL]
  · intro g inp h
    unfold Game.gameLoop
    dsimp only
    split_ifs
    all_goals first
      | exact h
      | (unfold spawnInv Game.levelUp; rfl)
      | (unfold spawnInv; rfl)
  · norm_num [MIN_SPAWN_INTERVAL, INITIAL_SPAWN_INTERVAL]
  · norm_num [MIN_SPAWN_INTERVAL, INITIAL_SPAWN_INTERVAL]

/-- C7 witness: one Running tick from the fresh game preserves the
spawn-interval formula. -/
theorem spawn_interval_formula_witness :
    spawnInv ((Game.fresh.startGame 0).gameLoop
      { currentTime := 16, rand := 0, width := 600, charRect := ⟨0, 0, 0, 0⟩,
        obsRect := fun _ => ⟨0, 0, 0, 0⟩ }) :=
  spawn_interval_formula.2.1 (Game.fresh.startGame 0) _
    (by unfold spawnInv Game.startGame Game.fresh
        norm_num [MIN_SPAWN_INTERVAL, INITIAL_SPAWN_INTERVAL])

/-- C10: a `pause()` followed by a `resume()` leaves every gameplay field —
score, high score, level, obstacle speed, spawn interval, the whole
character state and the whole obstacle-manager state — unchanged: the
composite equals the original game with only `lastFrameTime` re-anchored
(the session flag goes Running → Paused → Running, back to its original
value); and a `gameLoop` tick in any non-Running state is the identity, so
no tick body executes while paused. -/
theorem pause_resume_identity (g : Game) (now : ℚ) (hrun : g.state = GState.running) :
    (g.pause).resume now = { g with lastFrameTime := now } ∧
    ∀ (g2 : Game) (inp : TickInput), g2.state ≠ GState.running → g2.gameLoop inp = g2 := by
  constructor
  · rcases g with ⟨st, sc, hs, lv, os, si, lf, ch, om⟩
    dsimp at hrun
    subst hrun
    rfl
  · intro g2 inp h
    unfold Game.gameLoop
    rw [if_pos h]

/-- C10 witness: pausing and resuming the just-started game only re-anchors
the frame-time baseline. -/
theorem pause_resume_identity_witness :
    ((Game.fresh.startGame 0).pause).resume 7 =
      { Game.fresh.startGame 0 with lastFrameTime := 7 } :=
  (pause_resume_identity (Game.fresh.startGame 0) 7 rfl).1

end JumpDash
